import Mathlib

/-!
Verification development for the ip.tv repository (React IPTV player with an
hls.js playback engine and a PeerJS based remote-control session).

The definitions below are a shallow embedding of the JavaScript source:

* `src/components/Player.jsx` — the playback state (React `useState` fields)
  and the imperative handle operations `setVolumeLevel`, `toggleMute`,
  `togglePlayPause`, `stopPlayback`, `changeVolumeBy`, the `useEffect` that
  runs on a source-url change, and the `Hls.Events.ERROR` handler.
* `src/components/IpTv.jsx` — channel navigation (`getCurrentChannelIndex`,
  `hasNextChannel`, `hasPrevChannel`, `handleNextChannel`,
  `handlePrevChannel`), the remote-command dispatcher `handleRemoteCommand`,
  the broadcast path (`sendStateToConnection`, `broadcastRemoteState`),
  connection cleanup, and the session-id generation / persistence in
  `startRemoteHost`.
* `src/App.jsx` (RemotePage) — the controller's connection close handler and
  `sendCommand`.

JavaScript numbers are modelled as `JSNum`: either a finite rational or one
of the non-finite values `NaN`, `Infinity`, `-Infinity`.  Dyadic rationals
`n / 2^k` stand for the values `Math.random()` can return.
-/

/-- A JavaScript number: a finite value (modelled as a rational) or one of
the IEEE special values `NaN`, `Infinity`, `-Infinity`. -/
inductive JSNum where
  | finite (q : ℚ)
  | nan
  | posInf
  | negInf
deriving DecidableEq, Repr

/-- Models `Math.max(a, b)` on JavaScript numbers: `NaN` absorbs, otherwise the
larger value. -/
def jsMax : JSNum → JSNum → JSNum
  | .nan, _ => .nan
  | _, .nan => .nan
  | .posInf, _ => .posInf
  | _, .posInf => .posInf
  | .negInf, b => b
  | a, .negInf => a
  | .finite a, .finite b => .finite (max a b)

/-- Models `Math.min(a, b)` on JavaScript numbers. -/
def jsMin : JSNum → JSNum → JSNum
  | .nan, _ => .nan
  | _, .nan => .nan
  | .negInf, _ => .negInf
  | _, .negInf => .negInf
  | .posInf, b => b
  | a, .posInf => a
  | .finite a, .finite b => .finite (min a b)

/-- JavaScript `+` on numbers: `NaN` absorbs, `Infinity + -Infinity = NaN`. -/
def jsAdd : JSNum → JSNum → JSNum
  | .nan, _ => .nan
  | _, .nan => .nan
  | .posInf, .negInf => .nan
  | .negInf, .posInf => .nan
  | .posInf, _ => .posInf
  | _, .posInf => .posInf
  | .negInf, _ => .negInf
  | _, .negInf => .negInf
  | .finite a, .finite b => .finite (a + b)

/-- JavaScript strict equality `===` on numbers (`NaN === x` is false). -/
def jsStrictEq : JSNum → JSNum → Bool
  | .nan, _ => false
  | _, .nan => false
  | .finite a, .finite b => a == b
  | .posInf, .posInf => true
  | .negInf, .negInf => true
  | _, _ => false

/-- Models `Number.isFinite`. -/
def jsIsFinite : JSNum → Bool
  | .finite _ => true
  | _ => false

/-- The React state of `Player.jsx` relevant to playback (the spec's
`PlayerState`), with the backing `<video>` element's `volume`/`muted`
kept in sync with the React fields, as the source does. -/
structure PlayerState where
  isPlaying : Bool
  isLoading : Bool
  error : Option String
  currentTime : ℚ
  duration : ℚ
  volume : JSNum
  isMuted : Bool
deriving DecidableEq, Repr

/-- Models `setVolumeLevel` in `Player.jsx`:
`clamped = Math.min(1, Math.max(0, newVolume)); video.volume = clamped;
setVolume(clamped); const muted = clamped === 0; setIsMuted(muted);
video.muted = muted;` (assumes a `<video>` element is mounted, i.e. a
channel is selected). -/
def setVolumeLevel (newVolume : JSNum) (p : PlayerState) : PlayerState :=
  let clamped := jsMin (.finite 1) (jsMax (.finite 0) newVolume)
  { p with volume := clamped, isMuted := jsStrictEq clamped (.finite 0) }

/-- Models `toggleMute` in `Player.jsx`:
`video.muted = !video.muted; setIsMuted(video.muted);
if (!video.muted && video.volume === 0) { video.volume = 0.5; setVolume(0.5); }`. -/
def toggleMute (p : PlayerState) : PlayerState :=
  let muted := !p.isMuted
  let p1 := { p with isMuted := muted }
  if !muted && jsStrictEq p1.volume (.finite 0) then
    { p1 with volume := .finite (mkRat 1 2) }
  else p1

/-- Models `togglePlayPause` in `Player.jsx`: pauses when playing (the `pause`
event then sets `isPlaying` to false); otherwise calls `video.play()`,
whose success fires the `play` event (`isPlaying := true`) and whose
rejection runs the catch handler (`setIsPlaying(false)`).  The parameter
`playOk` records whether the browser lets the play promise resolve. -/
def togglePlayPause (playOk : Bool) (p : PlayerState) : PlayerState :=
  if p.isPlaying then { p with isPlaying := false }
  else { p with isPlaying := playOk }

/-- Models `stopPlayback` in `Player.jsx`: `video.pause(); video.currentTime = 0;
setIsPlaying(false);` (the seek fires a `timeupdate`, syncing the React
`currentTime` field to 0). -/
def stopPlayback (p : PlayerState) : PlayerState :=
  { p with isPlaying := false, currentTime := 0 }

/-- Models `changeVolumeBy` in `Player.jsx`:
`setVolumeLevel((videoRef.current?.volume ?? volume) + delta)` with the
video element mounted. -/
def changeVolumeBy (delta : JSNum) (p : PlayerState) : PlayerState :=
  setVolumeLevel (jsAdd p.volume delta) p

/-- The synchronous React-state effect of the `useEffect([src])` body in
`Player.jsx` when the source url changes: `setIsLoading(true);
setError(null);` — no other state field is written by the effect (the
previous effect's cleanup removes the listeners before touching the video,
so it performs no state updates either). -/
def srcChangeEffect (p : PlayerState) : PlayerState :=
  { p with isLoading := true, error := none }

/-- The `data.type` of an hls.js error: `Hls.ErrorTypes.NETWORK_ERROR`,
`Hls.ErrorTypes.MEDIA_ERROR`, or any other type (the `default` branch of
the handler's switch). -/
inductive HlsErrorType where
  | networkError
  | mediaError
  | otherError
deriving DecidableEq, Repr

/-- The call the error handler makes on the hls.js engine instance. -/
inductive EngineAction where
  | noAction
  | startLoad
  | recoverMediaError
  | destroy
deriving DecidableEq, Repr

/-- The `Hls.Events.ERROR` handler in `Player.jsx` (`setupVideo`):
non-fatal errors are ignored; fatal network errors call `hls.startLoad()`;
fatal media errors call `hls.recoverMediaError()`; any other fatal error
calls `hls.destroy()`, sets the error message, clears the loading flag.
Returns the updated player state and the engine call performed. -/
def hlsErrorHandler (fatal : Bool) (errType : HlsErrorType) (p : PlayerState) :
    PlayerState × EngineAction :=
  if fatal then
    match errType with
    | .networkError => (p, .startLoad)
    | .mediaError => (p, .recoverMediaError)
    | .otherError =>
        ({ p with error := some "Failed to load video", isLoading := false }, .destroy)
  else (p, .noAction)

/-- A parsed playlist channel (`parseM3U` in `IpTv.jsx`). -/
structure Channel where
  name : String
  url : String
  logo : Option String
  group : String
deriving DecidableEq, Repr

/-- The predicate `(ch) => ch.url === selectedChannel?.url` used by
`getCurrentChannelIndex`; with no selection the comparison against
`undefined` is false for every channel. -/
def urlMatches (sel : Option Channel) (ch : Channel) : Bool :=
  match sel with
  | some s => ch.url == s.url
  | none => false

/-- JavaScript `Array.prototype.findIndex`: index of the first element
satisfying the predicate, `-1` when none does. -/
def findChannelIndex (p : Channel → Bool) : List Channel → Int
  | [] => -1
  | ch :: rest =>
      if p ch then 0
      else
        let r := findChannelIndex p rest
        if r < 0 then -1 else r + 1

/-- Models `getCurrentChannelIndex` in `IpTv.jsx`:
`filteredChannels.findIndex((ch) => ch.url === selectedChannel?.url)`. -/
def getCurrentChannelIndex (filtered : List Channel) (sel : Option Channel) : Int :=
  findChannelIndex (urlMatches sel) filtered

/-- Models `hasNextChannel` in `IpTv.jsx`:
`currentIndex >= 0 && currentIndex < filteredChannels.length - 1`. -/
def hasNextChannel (filtered : List Channel) (sel : Option Channel) : Bool :=
  let currentIndex := getCurrentChannelIndex filtered sel
  decide (0 ≤ currentIndex) && decide (currentIndex < (filtered.length : Int) - 1)

/-- Models `hasPrevChannel` in `IpTv.jsx`: `currentIndex > 0`. -/
def hasPrevChannel (filtered : List Channel) (sel : Option Channel) : Bool :=
  decide (0 < getCurrentChannelIndex filtered sel)

/-- Models `handleNextChannel` in `IpTv.jsx`: a no-op on the empty filtered list;
otherwise selects `filteredChannels[currentIndex + 1]` when the current
index is in range, returning the (possibly unchanged) selection. -/
def handleNextChannel (filtered : List Channel) (sel : Option Channel) : Option Channel :=
  if filtered.length = 0 then sel
  else
    let currentIndex := getCurrentChannelIndex filtered sel
    if 0 ≤ currentIndex ∧ currentIndex < (filtered.length : Int) - 1 then
      filtered.get? (currentIndex + 1).toNat
    else sel

/-- Models `handlePrevChannel` in `IpTv.jsx`. -/
def handlePrevChannel (filtered : List Channel) (sel : Option Channel) : Option Channel :=
  if filtered.length = 0 then sel
  else
    let currentIndex := getCurrentChannelIndex filtered sel
    if 0 < currentIndex then
      filtered.get? (currentIndex - 1).toNat
    else sel

/-- A structured JavaScript value carried in a message payload. -/
inductive JSVal where
  | num (x : JSNum)
  | str (s : String)
  | boolean (b : Bool)
  | nullVal
deriving DecidableEq, Repr

/-- The `payload` object of a `command` message; `value` is absent when the
sender supplied none (so `payload?.value` is `undefined`). -/
structure CommandPayload where
  value : Option JSVal
deriving DecidableEq, Repr

/-- The action `handleRemoteCommand` in `IpTv.jsx` performs on the host:
each case of its switch either navigates the channel list or calls one of
the player-handle methods. -/
inductive HostAction where
  | next
  | prev
  | togglePlay
  | stop
  | toggleMute
  | volumeUp
  | volumeDown
  | setVolume (v : JSNum)
deriving DecidableEq, Repr

/-- The switch of `handleRemoteCommand` in `IpTv.jsx`, as the action it
selects: `none` when the command is unknown or when `set-volume` lacks a
number-typed `payload.value` (`typeof payload?.value === "number"`  — note
the guard tests the type only, not finiteness). -/
def hostDispatch (command : String) (payload : Option CommandPayload) : Option HostAction :=
  if command = "next" then some .next
  else if command = "prev" then some .prev
  else if command = "toggle-play" then some .togglePlay
  else if command = "stop" then some .stop
  else if command = "toggle-mute" then some .toggleMute
  else if command = "volume-up" then some .volumeUp
  else if command = "volume-down" then some .volumeDown
  else if command = "set-volume" then
    match payload with
    | some p =>
        match p.value with
        | some (.num x) => some (.setVolume x)
        | _ => none
    | none => none
  else none

/-- The number-typed payload value, when present (the value accepted by the
`typeof payload?.value === "number"` guard). -/
def payloadNumberValue : Option CommandPayload → Option JSNum
  | some p =>
      match p.value with
      | some (.num x) => some x
      | _ => none
  | none => none

/-- The host-side state a remote command can touch: the filtered channel
list with the current selection (channel navigation) and the player state
behind `playerRef`. -/
structure HostState where
  filteredChannels : List Channel
  selectedChannel : Option Channel
  player : PlayerState
deriving DecidableEq, Repr

/-- Application of one dispatched action: `next`/`prev` run the channel
navigation handlers; the rest call the `Player` imperative handle
(`remotePlayPause`, `remoteStop`, `remoteMuteToggle`, `remoteVolumeUp`,
`remoteVolumeDown`, `remoteVolumeChange` in `IpTv.jsx`).  `volumeUp` and
`volumeDown` use the source's delta `0.1`. -/
def applyHostAction (playOk : Bool) (a : HostAction) (h : HostState) : HostState :=
  match a with
  | .next => { h with selectedChannel := handleNextChannel h.filteredChannels h.selectedChannel }
  | .prev => { h with selectedChannel := handlePrevChannel h.filteredChannels h.selectedChannel }
  | .togglePlay => { h with player := togglePlayPause playOk h.player }
  | .stop => { h with player := stopPlayback h.player }
  | .toggleMute => { h with player := toggleMute h.player }
  | .volumeUp => { h with player := changeVolumeBy (.finite (mkRat 1 10)) h.player }
  | .volumeDown => { h with player := changeVolumeBy (.finite (mkRat (-1) 10)) h.player }
  | .setVolume v => { h with player := setVolumeLevel v h.player }

/-- Models `handleRemoteCommand` in `IpTv.jsx`: dispatch the command string and
apply the selected action; unknown or malformed commands fall through the
switch without touching anything. -/
def handleRemoteCommand (playOk : Bool) (command : String) (payload : Option CommandPayload)
    (h : HostState) : HostState :=
  match hostDispatch command payload with
  | some a => applyHostAction playOk a h
  | none => h

/-- A PeerJS data connection handle as the host sees it: an identity and
its `open` flag. -/
structure DataConnection where
  connId : Nat
  isOpen : Bool
deriving DecidableEq, Repr

/-- The playerState mirror kept by `IpTv.jsx` (`onPlayerStateChange`)
and embedded in every `state` message. -/
structure PlayerSnapshot where
  isPlaying : Bool
  volume : JSNum
  isMuted : Bool
deriving DecidableEq, Repr

/-- The `nav` field of a `state` message. -/
structure NavState where
  hasNext : Bool
  hasPrev : Bool
deriving DecidableEq, Repr

/-- The payload of a `state` message: the full snapshot
`{channel, player, nav}` built by `sendStateToConnection`. -/
structure StatePayload where
  channel : Option Channel
  player : PlayerSnapshot
  nav : NavState
deriving DecidableEq, Repr

/-- Models `sendStateToConnection` in `IpTv.jsx`: returns early when the
connection is not open, otherwise sends one `state` message with the full
snapshot.  The result is the list of (recipient, payload) sends made. -/
def sendStateToConnection (snap : StatePayload) (conn : DataConnection) :
    List (DataConnection × StatePayload) :=
  if !conn.isOpen then [] else [(conn, snap)]

/-- Models `broadcastRemoteState` in `IpTv.jsx`: returns early when no
connections are registered, otherwise calls `sendStateToConnection` once
per registered connection, in order. -/
def broadcastRemoteState (conns : List DataConnection) (snap : StatePayload) :
    List (DataConnection × StatePayload) :=
  if conns.length = 0 then []
  else (conns.map (sendStateToConnection snap)).flatten

/-- The host-session bookkeeping touched by `cleanupConnection`:
the registered connections (`remoteConnectionsRef`), the connected-client
count, and — untouched by cleanup — the selection and player state. -/
structure SessionHostState where
  connections : List DataConnection
  remoteConnectedClients : Nat
  selectedChannel : Option Channel
  playerState : PlayerSnapshot
deriving DecidableEq, Repr

/-- Models `cleanupConnection` in `IpTv.jsx` (run on a connection's `close` or
`error` event): filters the closed connection out of
`remoteConnectionsRef.current` and refreshes the client count. -/
def cleanupConnection (conn : DataConnection) (s : SessionHostState) : SessionHostState :=
  let conns := s.connections.filter (fun c => c != conn)
  { s with connections := conns, remoteConnectedClients := conns.length }

/-- The base-36 digits of the fractional value `n / 2^k` (the exact binary
fraction a JavaScript `Math.random()` result denotes), as printed by
`Number.prototype.toString(36)`: extract digits until the remainder is
zero.  Fuel `k` suffices, because each digit multiplies the remainder's
numerator by `36 = 2^2 * 3^2`, so after at most `k / 2` digits the
remainder's numerator is divisible by `2^k`. -/
def base36FracDigits : Nat → Nat → Nat → List Nat
  | 0, _, _ => []
  | fuel + 1, n, k =>
      if n = 0 then []
      else (n * 36 / 2 ^ k) :: base36FracDigits fuel (n * 36 % 2 ^ k) k

/-- The character for one base-36 digit (`0-9` then `a-z`), as produced by
`toString(36)`. -/
def digitChar36 (d : Nat) : Char :=
  if d < 10 then Char.ofNat (48 + d) else Char.ofNat (87 + d)

/-- The character list of `(n / 2^k).toString(36)`: `"0"` for zero,
otherwise `"0." ++ digits`. -/
def jsNumToString36 (n k : Nat) : List Char :=
  if n = 0 then ['0']
  else '0' :: '.' :: (base36FracDigits k n k).map digitChar36

/-- Models `generateSessionId` in `IpTv.jsx`:
`Math.random().toString(36).slice(2, 8).toUpperCase()`, for the random
value `n / 2^k`. -/
def generateSessionId (n k : Nat) : String :=
  String.mk ((((jsNumToString36 n k).drop 2).take 6).map Char.toUpper)

/-- The host-session state touched by `startRemoteHost` in `IpTv.jsx`:
the persisted storage slot (`localStorage`, key
`"iptv-remote-session-id"`), the `remoteSessionId` React state, the host
status, whether a peer instance exists (`remotePeerRef`), and the error
field. -/
structure RemoteHost where
  storageSessionId : Option String
  remoteSessionId : String
  remoteHostStatus : String
  peerActive : Bool
  remoteError : Option String
deriving DecidableEq, Repr

/-- Host-component mount: `remoteSessionId` is initialized from
`localStorage.getItem(REMOTE_SESSION_STORAGE_KEY) || ""`. -/
def initRemoteHost (storage : Option String) : RemoteHost :=
  { storageSessionId := storage
    remoteSessionId := storage.getD ""
    remoteHostStatus := "inactive"
    peerActive := false
    remoteError := none }

/-- Models `startRemoteHost` in `IpTv.jsx`: a no-op (status `ready`) when a peer
already exists; otherwise takes `remoteSessionId || generateSessionId()`
(the random source given as `n / 2^k`), stores it in state and in
`localStorage`, and opens the peer with status `connecting`. -/
def startRemoteHost (n k : Nat) (h : RemoteHost) : RemoteHost :=
  if h.peerActive then { h with remoteHostStatus := "ready" }
  else
    let id := if h.remoteSessionId = "" then generateSessionId n k else h.remoteSessionId
    { h with
        remoteSessionId := id
        storageSessionId := some id
        remoteHostStatus := "connecting"
        remoteError := none
        peerActive := true }

/-- The controller-side mirror of the host (`hostState` in
`RemotePage`). -/
structure ControllerHostView where
  channel : Option Channel
  player : PlayerSnapshot
  nav : NavState
deriving DecidableEq, Repr

/-- The controller's state in `RemotePage` (`App.jsx`): connection status,
the cached host view, and `connectionRef`. -/
structure ControllerState where
  connectionStatus : String
  hostState : ControllerHostView
  connection : Option DataConnection
deriving DecidableEq, Repr

/-- The `conn.on("close")` handler in `connectToSession` (`App.jsx`):
clears `connectionRef` when it still points at this connection, sets the
status to `disconnected`, and replaces the cached view's `channel` and
`nav` while spreading the rest (the `player` fields stay at their last
received values). -/
def connCloseHandler (conn : DataConnection) (s : ControllerState) : ControllerState :=
  { s with
      connection := if s.connection = some conn then none else s.connection
      connectionStatus := "disconnected"
      hostState := { s.hostState with
                       channel := none
                       nav := { hasNext := false, hasPrev := false } } }

/-- A `command` message as sent by the controller. -/
structure CommandMessage where
  command : String
  payload : Option CommandPayload
deriving DecidableEq, Repr

/-- Models `sendCommand` in `RemotePage` (`App.jsx`): returns early — sending
nothing and touching nothing — when there is no connection or the
connection is not open; otherwise sends one `command` message.  The result
pairs the (unchanged) controller state with the list of messages sent. -/
def sendCommand (s : ControllerState) (command : String) (payload : Option CommandPayload) :
    ControllerState × List CommandMessage :=
  match s.connection with
  | none => (s, [])
  | some c => if !c.isOpen then (s, []) else (s, [{ command := command, payload := payload }])

/-! Concrete values used by scenario conjuncts, witnesses and
counterexamples. -/

/-- The channel `{url: "a"}` of the spec's navigation scenario. -/
def chA : Channel := { name := "a", url := "a", logo := none, group := "Other" }

/-- The channel `{url: "b"}` of the spec's navigation scenario. -/
def chB : Channel := { name := "b", url := "b", logo := none, group := "Other" }

/-- The channel `{url: "c"}` of the spec's navigation scenario. -/
def chC : Channel := { name := "c", url := "c", logo := none, group := "Other" }

/-- A sample player state with volume 0.3, unmuted. -/
def pEx : PlayerState :=
  { isPlaying := false, isLoading := false, error := none, currentTime := 0,
    duration := 0, volume := .finite (mkRat 3 10), isMuted := false }

/-- Strict equality `jsStrictEq x 0` holds exactly when `x` is the finite value `0`
(`NaN === 0` and `Infinity === 0` are false). -/
theorem jsStrictEq_zero (x : JSNum) : (jsStrictEq x (.finite 0) = true) ↔ x = .finite 0 := by
  cases x <;> simp [jsStrictEq]

/-- C1: for every StreamEngine (hls.js) error event, the handler follows
the policy table — non-fatal errors cause no state change and no engine
call; a fatal network error triggers `startLoad` on the same source with
every PlayerState field unchanged; a fatal media error triggers an
in-place `recoverMediaError` with no visible state change; any other
fatal error destroys the engine instance, sets `error` to a
human-readable message and sets `isLoading` to false. -/
theorem hlsErrorHandler_policy (fatal : Bool) (t : HlsErrorType) (p : PlayerState) :
    (fatal = false → hlsErrorHandler fatal t p = (p, .noAction)) ∧
    (hlsErrorHandler true .networkError p = (p, .startLoad)) ∧
    (hlsErrorHandler true .mediaError p = (p, .recoverMediaError)) ∧
    ((hlsErrorHandler true .otherError p).2 = .destroy ∧
     (hlsErrorHandler true .otherError p).1.error = some "Failed to load video" ∧
     (hlsErrorHandler true .otherError p).1.isLoading = false) := by
  refine ⟨?_, rfl, rfl, rfl, rfl, rfl⟩
  intro h
  subst h
  rfl

/-- Witness for C1: a concrete non-fatal network error leaves the player
state untouched and performs no engine call. -/
theorem hlsErrorHandler_policy_witness :
    hlsErrorHandler false .networkError pEx = (pEx, .noAction) :=
  (hlsErrorHandler_policy false .networkError pEx).1 rfl

/-- C2: for every (finite) input `v`, `setVolumeLevel v` stores
`clamp(v, 0, 1)` as the volume, and afterwards `isMuted` holds exactly
when the stored volume is `0`; in particular `v = 0` forces `isMuted`
and `v > 0` forces `¬isMuted`. -/
theorem setVolumeLevel_clamps_and_syncs_mute (v : ℚ) (p : PlayerState) :
    (setVolumeLevel (.finite v) p).volume = .finite (min 1 (max 0 v)) ∧
    ((setVolumeLevel (.finite v) p).isMuted = true ↔ min 1 (max 0 v) = 0) ∧
    (v = 0 → (setVolumeLevel (.finite v) p).isMuted = true) ∧
    (0 < v → (setVolumeLevel (.finite v) p).isMuted = false) := by
  have hpos : 0 < v → (0 : ℚ) < min 1 (max 0 v) := fun h =>
    lt_min one_pos (lt_max_iff.mpr (Or.inr h))
  refine ⟨rfl, ?_, ?_, ?_⟩
  · simp [setVolumeLevel, jsMin, jsMax, jsStrictEq]
  · intro h
    subst h
    simp [setVolumeLevel, jsMin, jsMax, jsStrictEq]
  · intro h
    have := (hpos h).ne'
    simp [setVolumeLevel, jsMin, jsMax, jsStrictEq, this]

/-- Witness for C2: at `v = 1/2` the stored volume is `1/2` and the player
is unmuted. -/
theorem setVolumeLevel_clamps_and_syncs_mute_witness :
    (setVolumeLevel (.finite (mkRat 1 2)) pEx).isMuted = false :=
  (setVolumeLevel_clamps_and_syncs_mute (mkRat 1 2) pEx).2.2.2 (by decide)

/-- C3 counterexample: selecting a new channel does NOT reset
`currentTime` to 0 — the source-change effect only writes `isLoading` and
`error`, so a player whose `currentTime` is 5 still reports 5 after the
switch. -/
theorem srcChange_keeps_stale_currentTime :
    (srcChangeEffect { pEx with currentTime := 5 }).currentTime ≠ 0 := by decide

/-- C3 (amended): selecting a new channel (a change of the source url)
resets `error` to none and sets `isLoading` to true, and leaves `volume`,
`isMuted` — and also `currentTime`, `duration` and `isPlaying` — unchanged
across the switch; in particular `currentTime` is not reset to 0 by the
switch itself (it is only updated later by `timeupdate` events from the
new stream). -/
theorem srcChange_resets_error_preserves_rest (p : PlayerState) :
    (srcChangeEffect p).error = none ∧
    (srcChangeEffect p).isLoading = true ∧
    (srcChangeEffect p).volume = p.volume ∧
    (srcChangeEffect p).isMuted = p.isMuted ∧
    (srcChangeEffect p).currentTime = p.currentTime ∧
    (srcChangeEffect p).duration = p.duration ∧
    (srcChangeEffect p).isPlaying = p.isPlaying :=
  ⟨rfl, rfl, rfl, rfl, rfl, rfl, rfl⟩

/-- C8: applying `toggleMute` twice returns the player to its prior
audible configuration: `isMuted` always returns to its prior value; the
volume is unchanged when it was nonzero, and becomes the default `0.5`
when it was `0`. -/
theorem toggleMute_twice_restores (p : PlayerState) :
    ((toggleMute (toggleMute p)).isMuted = p.isMuted) ∧
    (p.volume ≠ .finite 0 → (toggleMute (toggleMute p)).volume = p.volume) ∧
    (p.volume = .finite 0 → (toggleMute (toggleMute p)).volume = .finite (mkRat 1 2)) := by
  have h12 : jsStrictEq (.finite (mkRat 1 2)) (.finite 0) = false := by decide
  by_cases hv : p.volume = .finite 0
  · have hzt : jsStrictEq p.volume (.finite 0) = true := (jsStrictEq_zero p.volume).mpr hv
    by_cases hm : p.isMuted
    · refine ⟨?_, fun h => absurd hv h, fun _ => ?_⟩ <;>
        simp [toggleMute, hm, hzt, h12]
    · have hm' : p.isMuted = false := by simpa using hm
      refine ⟨?_, fun h => absurd hv h, fun _ => ?_⟩ <;>
        simp [toggleMute, hm', hzt, h12]
  · have hzf : jsStrictEq p.volume (.finite 0) = false := by
      rcases h : jsStrictEq p.volume (.finite 0) with _ | _
      · rfl
      · exact absurd ((jsStrictEq_zero p.volume).mp h) hv
    by_cases hm : p.isMuted
    · refine ⟨?_, fun _ => ?_, fun h => absurd h hv⟩ <;>
        simp [toggleMute, hm, hzf]
    · have hm' : p.isMuted = false := by simpa using hm
      refine ⟨?_, fun _ => ?_, fun h => absurd h hv⟩ <;>
        simp [toggleMute, hm', hzf]

/-- Witness for C8: muting and unmuting from volume 0 lands on the
default volume `0.5`. -/
theorem toggleMute_twice_restores_witness :
    (toggleMute (toggleMute { pEx with volume := .finite 0 })).volume = .finite (mkRat 1 2) :=
  (toggleMute_twice_restores { pEx with volume := .finite 0 }).2.2 (by decide)

/-- C9: when the controller's connection to the host closes, the status
becomes `disconnected`, the cached view's channel is cleared and its nav
flags are cleared to false, while the cached player fields keep their
last received values. -/
theorem connCloseHandler_clears_channel_nav_keeps_player
    (conn : DataConnection) (s : ControllerState) :
    (connCloseHandler conn s).connectionStatus = "disconnected" ∧
    (connCloseHandler conn s).hostState.channel = none ∧
    (connCloseHandler conn s).hostState.nav = { hasNext := false, hasPrev := false } ∧
    (connCloseHandler conn s).hostState.player = s.hostState.player :=
  ⟨rfl, rfl, rfl, rfl⟩

/-- C10: invoking the controller's command sender with no connection, or
with a connection that is not open, is a silent no-op: no message is sent
and the controller state is unchanged. -/
theorem sendCommand_unconnected_noop (s : ControllerState) (command : String)
    (payload : Option CommandPayload)
    (h : s.connection = none ∨ ∀ c, s.connection = some c → c.isOpen = false) :
    sendCommand s command payload = (s, []) := by
  rcases h with h | h
  · simp [sendCommand, h]
  · cases hc : s.connection with
    | none => simp [sendCommand, hc]
    | some c =>
        have hopen := h c hc
        simp [sendCommand, hc, hopen]

/-- A sample controller state with no active connection. -/
def ctrlEx : ControllerState :=
  { connectionStatus := "idle"
    hostState := { channel := some chA
                   player := { isPlaying := false, volume := .finite 1, isMuted := false }
                   nav := { hasNext := false, hasPrev := false } }
    connection := none }

/-- Witness for C10: sending `next` with no connection leaves the
controller unchanged and sends nothing. -/
theorem sendCommand_unconnected_noop_witness :
    sendCommand ctrlEx "next" none = (ctrlEx, []) :=
  sendCommand_unconnected_noop ctrlEx "next" none (Or.inl rfl)

/-- C4: `next`/`prev` operate on the filtered view anchored by url
equality.  When the anchor is found at index `i`, `next` selects the
filtered element at `i+1` exactly when `i` is not the last filtered
index, and `prev` selects the element at `i-1` exactly when `i > 0`;
when the anchor is absent (`findIndex` returns `-1`) or at the
respective boundary, the selection is unchanged.  In particular for the
list `[a, b, c]` with selection `b`, `hasNext` and `hasPrev` are both
true and `next` selects `c`, after which `hasNext` is false. -/
theorem channelNavigation_bounds (filtered : List Channel) (sel : Option Channel) :
    (∀ i : Nat, getCurrentChannelIndex filtered sel = (i : Int) →
        (i + 1 < filtered.length → handleNextChannel filtered sel = filtered.get? (i + 1)) ∧
        (i + 1 ≥ filtered.length → handleNextChannel filtered sel = sel) ∧
        (0 < i → handlePrevChannel filtered sel = filtered.get? (i - 1)) ∧
        (i = 0 → handlePrevChannel filtered sel = sel)) ∧
    (getCurrentChannelIndex filtered sel = -1 →
        handleNextChannel filtered sel = sel ∧ handlePrevChannel filtered sel = sel) ∧
    (hasNextChannel [chA, chB, chC] (some chB) = true ∧
     hasPrevChannel [chA, chB, chC] (some chB) = true ∧
     handleNextChannel [chA, chB, chC] (some chB) = some chC ∧
     hasNextChannel [chA, chB, chC] (some chC) = false) := by
  refine ⟨?_, ?_, by decide, by decide, by decide, by decide⟩
  · intro i hi
    have hlen : ¬ filtered.length = 0 := by
      intro h0
      rw [List.length_eq_zero] at h0
      subst h0
      simp only [getCurrentChannelIndex, findChannelIndex] at hi
      omega
    refine ⟨?_, ?_, ?_, ?_⟩
    · intro hlt
      simp only [handleNextChannel, hi, if_neg hlen]
      rw [if_pos ⟨by omega, by omega⟩]
      have harg : ((i : Int) + 1).toNat = i + 1 := by omega
      rw [harg]
    · intro hge
      simp only [handleNextChannel, hi, if_neg hlen]
      rw [if_neg (by omega)]
    · intro hpos
      simp only [handlePrevChannel, hi, if_neg hlen]
      rw [if_pos (by omega)]
      have harg : ((i : Int) - 1).toNat = i - 1 := by omega
      rw [harg]
    · intro h0
      subst h0
      simp only [handlePrevChannel, hi, if_neg hlen]
      rw [if_neg (by omega)]
  · intro hneg
    by_cases h0 : filtered.length = 0
    · constructor <;> simp [handleNextChannel, handlePrevChannel, h0]
    · constructor
      · simp only [handleNextChannel, hneg, if_neg h0]
        rw [if_neg (by omega)]
      · simp only [handlePrevChannel, hneg, if_neg h0]
        rw [if_neg (by omega)]

/-- Witness for C4: in `[a, b, c]` with selection `b` (anchor index 1),
`next` selects element 2, i.e. `c`. -/
theorem channelNavigation_bounds_witness :
    handleNextChannel [chA, chB, chC] (some chB) = [chA, chB, chC].get? 2 :=
  (((channelNavigation_bounds [chA, chB, chC] (some chB)).1 1 (by decide)).1) (by decide)

/-- The `"set-volume"` case of the dispatch switch, isolated. -/
theorem hostDispatch_set_volume (payload : Option CommandPayload) :
    hostDispatch "set-volume" payload =
      (match payload with
       | some p =>
           match p.value with
           | some (.num x) => some (.setVolume x)
           | _ => none
       | none => none) := rfl

/-- A sample host state: channels `[a, b, c]`, selection `a`, player
`pEx`. -/
def hostEx : HostState :=
  { filteredChannels := [chA, chB, chC], selectedChannel := some chA, player := pEx }

/-- C5 counterexample: the claim requires `set-volume` to be applied only
for a *finite* payload value, but the guard
`typeof payload?.value === "number"` also accepts `Infinity`: the command
is dispatched and applied (the volume clamps to 1), although the value is
not finite. -/
theorem handleRemoteCommand_accepts_infinity :
    jsIsFinite .posInf = false ∧
    hostDispatch "set-volume" (some { value := some (.num .posInf) }) =
      some (.setVolume .posInf) ∧
    handleRemoteCommand true "set-volume" (some { value := some (.num .posInf) }) hostEx ≠
      hostEx := by
  refine ⟨rfl, rfl, ?_⟩
  decide

/-- C5 (amended): a `set-volume` command is applied exactly when its
payload value is of number type (finiteness is not checked — non-finite
numbers such as `Infinity` also pass the guard); a message whose command
is unknown, or whose `set-volume` payload value is missing or not a
number, is dropped silently, leaving the host state unchanged. -/
theorem handleRemoteCommand_dispatch_policy (playOk : Bool) (command : String)
    (payload : Option CommandPayload) (h : HostState) :
    (∀ x : JSNum, payloadNumberValue payload = some x →
        hostDispatch "set-volume" payload = some (.setVolume x)) ∧
    (payloadNumberValue payload = none →
        hostDispatch "set-volume" payload = none ∧
        handleRemoteCommand playOk "set-volume" payload h = h) ∧
    (command ∉ ["next", "prev", "toggle-play", "stop", "toggle-mute",
                "volume-up", "volume-down", "set-volume"] →
        hostDispatch command payload = none ∧
        handleRemoteCommand playOk command payload h = h) := by
  refine ⟨?_, ?_, ?_⟩
  · intro x hx
    rw [hostDispatch_set_volume]
    cases payload with
    | none => simp [payloadNumberValue] at hx
    | some p =>
        cases hpv : p.value with
        | none => simp [payloadNumberValue, hpv] at hx
        | some v =>
            cases v with
            | num y =>
                simp only [payloadNumberValue, hpv, Option.some.injEq] at hx
                subst hx
                simp [hpv]
            | str s => simp [payloadNumberValue, hpv] at hx
            | boolean b => simp [payloadNumberValue, hpv] at hx
            | nullVal => simp [payloadNumberValue, hpv] at hx
  · intro hx
    have hd : hostDispatch "set-volume" payload = none := by
      rw [hostDispatch_set_volume]
      cases payload with
      | none => rfl
      | some p =>
          cases hpv : p.value with
          | none => simp [hpv]
          | some v =>
              cases v with
              | num y => simp [payloadNumberValue, hpv] at hx
              | str s => simp [hpv]
              | boolean b => simp [hpv]
              | nullVal => simp [hpv]
    exact ⟨hd, by simp [handleRemoteCommand, hd]⟩
  · intro hmem
    simp only [List.mem_cons, List.not_mem_nil, or_false, not_or] at hmem
    obtain ⟨h1, h2, h3, h4, h5, h6, h7, h8⟩ := hmem
    have hd : hostDispatch command payload = none := by
      simp only [hostDispatch, if_neg h1, if_neg h2, if_neg h3, if_neg h4, if_neg h5,
        if_neg h6, if_neg h7, if_neg h8]
    exact ⟨hd, by simp [handleRemoteCommand, hd]⟩

/-- Witness for C5: an unknown command is dropped silently. -/
theorem handleRemoteCommand_dispatch_policy_witness :
    handleRemoteCommand true "bogus" none hostEx = hostEx :=
  ((handleRemoteCommand_dispatch_policy true "bogus" none hostEx).2.2 (by decide)).2

/-- The early-return guard of `broadcastRemoteState` is redundant: the
broadcast always equals the concatenation of the per-connection sends. -/
theorem broadcastRemoteState_eq_flatten (conns : List DataConnection) (snap : StatePayload) :
    broadcastRemoteState conns snap = (conns.map (sendStateToConnection snap)).flatten := by
  cases conns with
  | nil => rfl
  | cons a l => simp [broadcastRemoteState]

/-- How often one send hits an open connection `c`. -/
theorem count_send_pair (a c : DataConnection) (snap : StatePayload) (hc : c.isOpen = true) :
    (sendStateToConnection snap a).count (c, snap) = if a = c then 1 else 0 := by
  by_cases hac : a = c
  · subst hac
    simp [sendStateToConnection, hc]
  · rcases ha : a.isOpen with _ | _
    · simp [sendStateToConnection, ha, hac]
    · have hpair : (c, snap) ≠ (a, snap) := fun hp => hac (congrArg Prod.fst hp).symm
      simp [sendStateToConnection, ha, List.count_cons_of_ne hpair, hac]

/-- An open connection receives the snapshot as often as it is registered. -/
theorem flatten_count_open (conns : List DataConnection) (snap : StatePayload)
    (c : DataConnection) (hc : c.isOpen = true) :
    ((conns.map (sendStateToConnection snap)).flatten).count (c, snap) = conns.count c := by
  induction conns with
  | nil => rfl
  | cons a l ih =>
      simp only [List.map_cons, List.flatten_cons, List.count_append, ih,
        count_send_pair a c snap hc]
      by_cases hac : a = c
      · subst hac
        simp [Nat.add_comm]
      · simp [hac, List.count_cons_of_ne (fun h => hac h.symm)]

/-- A connection that is not open receives nothing. -/
theorem flatten_count_closed (conns : List DataConnection) (snap : StatePayload)
    (c : DataConnection) (hc : c.isOpen = false) :
    ((conns.map (sendStateToConnection snap)).flatten).count (c, snap) = 0 := by
  induction conns with
  | nil => rfl
  | cons a l ih =>
      simp only [List.map_cons, List.flatten_cons, List.count_append, ih, Nat.add_zero]
      rcases ha : a.isOpen with _ | _
      · simp [sendStateToConnection, ha]
      · have hca : c ≠ a := by
          intro h
          simp [h, ha] at hc
        have hpair : (c, snap) ≠ (a, snap) := by
          intro hp
          exact hca (congrArg Prod.fst hp)
        simp [sendStateToConnection, ha, List.count_cons_of_ne hpair]

/-- Filtering one connection out does not change the multiplicity of any
other connection. -/
theorem count_filter_ne (l : List DataConnection) (conn c : DataConnection) (h : c ≠ conn) :
    (l.filter (fun x => x != conn)).count c = l.count c :=
  List.count_filter (bne_iff_ne.mpr h)

/-- C6: a state-change broadcast reaches every currently connected (open,
registered-once) controller exactly once; controllers whose connection is
no longer open are excluded; and cleaning up a closed or errored
connection preserves every other controller's multiplicity in the
registry and leaves the selection and player state untouched. -/
theorem broadcast_once_cleanup_isolated (conns : List DataConnection) (snap : StatePayload)
    (c conn : DataConnection) (s : SessionHostState) :
    (c.isOpen = true → conns.count c = 1 →
        (broadcastRemoteState conns snap).count (c, snap) = 1) ∧
    (c.isOpen = false → (broadcastRemoteState conns snap).count (c, snap) = 0) ∧
    (c ≠ conn → (cleanupConnection conn s).connections.count c = s.connections.count c) ∧
    (cleanupConnection conn s).selectedChannel = s.selectedChannel ∧
    (cleanupConnection conn s).playerState = s.playerState := by
  refine ⟨?_, ?_, ?_, rfl, rfl⟩
  · intro hc hcount
    rw [broadcastRemoteState_eq_flatten, flatten_count_open conns snap c hc, hcount]
  · intro hc
    rw [broadcastRemoteState_eq_flatten, flatten_count_closed conns snap c hc]
  · intro hne
    exact count_filter_ne s.connections conn c hne

/-- An open controller connection. -/
def remoteConnA : DataConnection := { connId := 1, isOpen := true }

/-- A controller connection that already closed. -/
def remoteConnB : DataConnection := { connId := 2, isOpen := false }

/-- A sample snapshot payload. -/
def snapEx : StatePayload :=
  { channel := some chA
    player := { isPlaying := true, volume := .finite 1, isMuted := false }
    nav := { hasNext := true, hasPrev := false } }

/-- A sample host-session state with both connections registered. -/
def sessEx : SessionHostState :=
  { connections := [remoteConnA, remoteConnB]
    remoteConnectedClients := 2
    selectedChannel := some chA
    playerState := { isPlaying := true, volume := .finite 1, isMuted := false } }

/-- Witness for C6: in a registry holding an open and a closed
connection, a broadcast reaches the open one exactly once, and cleaning
up the closed one preserves the open one's registration. -/
theorem broadcast_once_cleanup_isolated_witness :
    (broadcastRemoteState [remoteConnA, remoteConnB] snapEx).count (remoteConnA, snapEx) = 1 ∧
    (cleanupConnection remoteConnB sessEx).connections.count remoteConnA =
      sessEx.connections.count remoteConnA :=
  ⟨(broadcast_once_cleanup_isolated [remoteConnA, remoteConnB] snapEx remoteConnA remoteConnB
      sessEx).1 (by decide) (by decide),
   (broadcast_once_cleanup_isolated [remoteConnA, remoteConnB] snapEx remoteConnA remoteConnB
      sessEx).2.2.1 (by decide)⟩

/-- Every digit produced by the base-36 expansion of `n / 2^k` with
`n < 2^k` is below 36. -/
theorem base36FracDigits_lt (fuel : Nat) : ∀ (n k : Nat), n < 2 ^ k →
    ∀ d ∈ base36FracDigits fuel n k, d < 36 := by
  induction fuel with
  | zero =>
      intro n k h d hd
      simp [base36FracDigits] at hd
  | succ fuel ih =>
      intro n k h d hd
      have hpow : 0 < 2 ^ k := pow_pos (by norm_num) k
      by_cases h0 : n = 0
      · simp [base36FracDigits, h0] at hd
      · simp only [base36FracDigits, if_neg h0, List.mem_cons] at hd
        rcases hd with hd | hd
        · subst hd
          exact (Nat.div_lt_iff_lt_mul hpow).mpr (by omega)
        · exact ih (n * 36 % 2 ^ k) k (Nat.mod_lt _ hpow) d hd

/-- The characters a session id may contain: uppercase alphanumeric. -/
def isSessionChar (c : Char) : Bool :=
  ('0' ≤ c && c ≤ '9') || ('A' ≤ c && c ≤ 'Z')

/-- Each base-36 digit below 36, uppercased, is an uppercase alphanumeric
character. -/
theorem digitChar36_upper : ∀ d < 36, isSessionChar (Char.toUpper (digitChar36 d)) = true := by
  decide

/-- The character data of a generated session id for a nonzero random
value: the first six base-36 fraction digits, uppercased. -/
theorem generateSessionId_data (n k : Nat) (h0 : n ≠ 0) :
    (generateSessionId n k).data
      = (((base36FracDigits k n k).map digitChar36).take 6).map Char.toUpper := by
  unfold generateSessionId jsNumToString36
  rw [if_neg h0]
  rfl

/-- A generated session id has at most 6 characters. -/
theorem generateSessionId_length_le (n k : Nat) : (generateSessionId n k).length ≤ 6 := by
  have hdata : (generateSessionId n k).length
      = ((((jsNumToString36 n k).drop 2).take 6).map Char.toUpper).length := rfl
  rw [hdata, List.length_map, List.length_take]
  omega

/-- Every character of a generated session id is uppercase alphanumeric. -/
theorem generateSessionId_chars (n k : Nat) (h : n < 2 ^ k) :
    ∀ c ∈ (generateSessionId n k).data, isSessionChar c = true := by
  by_cases h0 : n = 0
  · intro c hc
    subst h0
    simp [generateSessionId, jsNumToString36] at hc
  · intro c hc
    rw [generateSessionId_data n k h0] at hc
    rcases List.mem_map.mp hc with ⟨c1, hc1, rfl⟩
    have hc2 : c1 ∈ (base36FracDigits k n k).map digitChar36 := List.take_subset _ _ hc1
    rcases List.mem_map.mp hc2 with ⟨d, hd, rfl⟩
    exact digitChar36_upper d (base36FracDigits_lt k n k h d hd)

/-- A nonzero random value yields a nonempty session id. -/
theorem generateSessionId_ne_empty (n k : Nat) (hn : 0 < n) (h : n < 2 ^ k) :
    generateSessionId n k ≠ "" := by
  have h0 : n ≠ 0 := hn.ne'
  cases k with
  | zero =>
      simp at h
      omega
  | succ j =>
      have hdig : base36FracDigits (j + 1) n (j + 1) =
          (n * 36 / 2 ^ (j + 1)) :: base36FracDigits j (n * 36 % 2 ^ (j + 1)) (j + 1) := by
        simp [base36FracDigits, h0]
      intro hemp
      have hdata := congrArg String.data hemp
      rw [generateSessionId_data n (j + 1) h0, hdig] at hdata
      simp at hdata

/-- C7 counterexample: the session code's length is NOT fixed — it
depends on the random value.  `Math.random() = 1/2` prints as `"0.i"` in
base 36, so the code is the single character `"I"`, while
`Math.random() = 1/8192` yields a 6-character code. -/
theorem generateSessionId_length_not_fixed :
    generateSessionId 1 1 = "I" ∧
    (generateSessionId 1 1).length = 1 ∧
    (generateSessionId 1 13).length = 6 ∧
    (generateSessionId 1 1).length ≠ (generateSessionId 1 13).length :=
  ⟨by decide, by decide, by decide, by decide⟩

/-- C7 (amended): the host's session identifier is an uppercase
alphanumeric code of length at most 6 (not always exactly 6 — shorter
random fractions yield shorter codes); it is generated when no persisted
identifier exists, written to persistent storage at first generation, and
a (nonempty) generated identifier is reused unchanged on every subsequent
host start within the same browser profile. -/
theorem sessionId_generation_persistence (n k n2 k2 : Nat) (hk : n < 2 ^ k)
    (hn : 0 < n) (idStr : String) (hid : idStr ≠ "") :
    ((generateSessionId n k).length ≤ 6) ∧
    (∀ c ∈ (generateSessionId n k).data, isSessionChar c = true) ∧
    ((startRemoteHost n k (initRemoteHost none)).remoteSessionId = generateSessionId n k ∧
     (startRemoteHost n k (initRemoteHost none)).storageSessionId =
       some (generateSessionId n k)) ∧
    ((startRemoteHost n2 k2 (initRemoteHost
        (startRemoteHost n k (initRemoteHost none)).storageSessionId)).remoteSessionId =
      generateSessionId n k) ∧
    ((startRemoteHost n k (initRemoteHost (some idStr))).remoteSessionId = idStr ∧
     (startRemoteHost n k (initRemoteHost (some idStr))).storageSessionId = some idStr) := by
  refine ⟨generateSessionId_length_le n k, generateSessionId_chars n k hk, ⟨rfl, rfl⟩, ?_, ?_⟩
  · have hne := generateSessionId_ne_empty n k hn hk
    simp [startRemoteHost, initRemoteHost, hne]
  · constructor <;> simp [startRemoteHost, initRemoteHost, hid]

/-- Witness for C7: a concretely generated id is short, and a persisted
id `"AB12CD"` is reused unchanged. -/
theorem sessionId_generation_persistence_witness :
    (generateSessionId 1 1).length ≤ 6 ∧
    (startRemoteHost 1 1 (initRemoteHost (some "AB12CD"))).remoteSessionId = "AB12CD" :=
  ⟨(sessionId_generation_persistence 1 1 1 1 (by decide) (by decide) "AB12CD" (by decide)).1,
   (sessionId_generation_persistence 1 1 1 1 (by decide) (by decide) "AB12CD"
      (by decide)).2.2.2.2.1⟩
